import Mathlib

/-!
Verification development for the OptiX instance-array build-input module
(`crates/optix/src/instance_array.rs`): the `Instance` record with its
fluent configuration API, the `InstanceFlags` bit-set, and the two
build-input wrappers `InstanceArray` and `InstancePointerArray`.

The `sys` layer (raw driver struct definitions and enumerated constants),
the device-buffer abstraction `DeviceSlice` and the bottom-level
acceleration structure `Accel` are external collaborators not present in
the verified sources; they are modelled from the specification where a
claim needs them, marked `Modelled from the spec:` below.

Machine integers are modelled as `Nat`; the `usize -> u32` cast performed
by `len() as u32` is modelled as reduction modulo `2 ^ 32`.
-/

namespace InstanceArraySpec

/-- The modulus of a 32-bit unsigned integer. -/
def U32 : Nat := 2 ^ 32

/-- Modelled from the spec: the external driver flag constants
(`sys::OptixInstanceFlags_*`), a closed set of named bit values pinned to
the driver ABI: NONE is 0 and the remaining flags are distinct single
bits. -/
def OptixInstanceFlags_OPTIX_INSTANCE_FLAG_NONE : Nat := 0

/-- Modelled from the spec: driver ABI constant, bit 0. -/
def OptixInstanceFlags_OPTIX_INSTANCE_FLAG_DISABLE_TRIANGLE_FACE_CULLING : Nat := 1

/-- Modelled from the spec: driver ABI constant, bit 1. -/
def OptixInstanceFlags_OPTIX_INSTANCE_FLAG_FLIP_TRIANGLE_FACING : Nat := 2

/-- Modelled from the spec: driver ABI constant, bit 2. -/
def OptixInstanceFlags_OPTIX_INSTANCE_FLAG_DISABLE_ANYHIT : Nat := 4

/-- Modelled from the spec: driver ABI constant, bit 3. -/
def OptixInstanceFlags_OPTIX_INSTANCE_FLAG_ENFORCE_ANYHIT : Nat := 8

/-- Modelled from the spec: driver ABI constant, bit 6. -/
def OptixInstanceFlags_OPTIX_INSTANCE_FLAG_DISABLE_TRANSFORM : Nat := 64

/-- `InstanceFlags`: the `bitflags::bitflags!`-generated bit-set over a
`u32` backing store (source lines 25-35). -/
structure InstanceFlags where
  bits : Nat
  deriving DecidableEq, Repr

/-- `InstanceFlags::NONE`. -/
def InstanceFlags.NONE : InstanceFlags :=
  ⟨OptixInstanceFlags_OPTIX_INSTANCE_FLAG_NONE⟩

/-- `InstanceFlags::DISABLE_TRIANGLE_FACE_CULLING`. -/
def InstanceFlags.DISABLE_TRIANGLE_FACE_CULLING : InstanceFlags :=
  ⟨OptixInstanceFlags_OPTIX_INSTANCE_FLAG_DISABLE_TRIANGLE_FACE_CULLING⟩

/-- `InstanceFlags::FLIP_TRIANGLE_FACING`. -/
def InstanceFlags.FLIP_TRIANGLE_FACING : InstanceFlags :=
  ⟨OptixInstanceFlags_OPTIX_INSTANCE_FLAG_FLIP_TRIANGLE_FACING⟩

/-- `InstanceFlags::DISABLE_ANYHIT`. -/
def InstanceFlags.DISABLE_ANYHIT : InstanceFlags :=
  ⟨OptixInstanceFlags_OPTIX_INSTANCE_FLAG_DISABLE_ANYHIT⟩

/-- `InstanceFlags::ENFORCE_ANYHIT`. -/
def InstanceFlags.ENFORCE_ANYHIT : InstanceFlags :=
  ⟨OptixInstanceFlags_OPTIX_INSTANCE_FLAG_ENFORCE_ANYHIT⟩

/-- `InstanceFlags::DISABLE_TRANSFORM`. -/
def InstanceFlags.DISABLE_TRANSFORM : InstanceFlags :=
  ⟨OptixInstanceFlags_OPTIX_INSTANCE_FLAG_DISABLE_TRANSFORM⟩

/-- The bitflags union operator `a | b`: bitwise or of the backing bits. -/
def InstanceFlags.union (a b : InstanceFlags) : InstanceFlags :=
  ⟨a.bits ||| b.bits⟩

/-- The bitflags intersection operator `a & b`: bitwise and of the backing
bits. -/
def InstanceFlags.inter (a b : InstanceFlags) : InstanceFlags :=
  ⟨a.bits &&& b.bits⟩

/-- The bitflags membership test `a.contains(b)`: all bits of `b` are set
in `a`. -/
def InstanceFlags.contains (a b : InstanceFlags) : Bool :=
  a.bits &&& b.bits == b.bits

/-- `mint::RowMatrix3x4<f32>`: a 3x4 row-major matrix of 12 floats. The
module stores and replaces transforms but performs no arithmetic on them,
so entries are modelled as exact rationals (every literal appearing in the
source — 0.0 and 1.0 — is exactly representable). -/
abbrev RowMatrix3x4 := List ℚ

/-- The identity transform literal written in `Instance::new`
(source lines 41-44): row-major `[1 0 0 0 / 0 1 0 0 / 0 0 1 0]`. -/
def identityTransform : RowMatrix3x4 :=
  [1, 0, 0, 0, 0, 1, 0, 0, 0, 0, 1, 0]

/-- Modelled from the spec: the opaque traversable handle issued by the
driver for a built acceleration structure (an 8-byte opaque handle). -/
structure TraversableHandle where
  raw : Nat
  deriving DecidableEq, Repr

/-- Modelled from the spec: the bottom-level acceleration structure
`Accel`, an external collaborator exposing `handle() -> opaque traversable
handle`. -/
structure Accel where
  builtHandle : TraversableHandle
  deriving DecidableEq, Repr

/-- `Accel::handle()`. -/
def Accel.handle (a : Accel) : TraversableHandle := a.builtHandle

/-- The `Instance` record (source lines 8-19): transform, identifiers,
mask, flags, handle and two reserved padding words. The `PhantomData`
lifetime marker is zero-sized and carries no data, so it is omitted from
the value model (it is accounted for in the layout model below). -/
structure Instance where
  transform : RowMatrix3x4
  instance_id : Nat
  sbt_offset : Nat
  visibility_mask : Nat
  flags : InstanceFlags
  traversable_handle : TraversableHandle
  pad : List Nat
  deriving DecidableEq, Repr

/-- `Instance::new(accel)` (source lines 38-53): identity transform,
id 0, sbt offset 0, visibility mask 255, flags NONE, handle captured from
the argument, padding zeroed. -/
def Instance.new (accel : Accel) : Instance :=
  { transform := identityTransform
    instance_id := 0
    sbt_offset := 0
    visibility_mask := 255
    flags := InstanceFlags.NONE
    traversable_handle := accel.handle
    pad := [0, 0] }

/-- `Instance::transform(self, transform)` (source lines 55-58): replaces
the transform. Named `with_transform` because the Rust method shares its
name with the field it sets. -/
def Instance.with_transform (i : Instance) (t : RowMatrix3x4) : Instance :=
  { i with transform := t }

/-- `Instance::instance_id(self, instance_id)` (source lines 60-63):
stores the 32-bit argument verbatim. -/
def Instance.with_instance_id (i : Instance) (instance_id : Nat) : Instance :=
  { i with instance_id := instance_id }

/-- `Instance::sbt_offset(self, sbt_offset)` (source lines 65-68): stores
the 32-bit argument verbatim. -/
def Instance.with_sbt_offset (i : Instance) (sbt_offset : Nat) : Instance :=
  { i with sbt_offset := sbt_offset }

/-- `Instance::visibility_mask(self, visibility_mask)` (source lines
70-73): takes a `u8` (a natural number below 256) and stores it, widened
by `as u32`, which preserves the value. -/
def Instance.with_visibility_mask (i : Instance) (mask : Nat) : Instance :=
  { i with visibility_mask := mask }

/-- `Instance::flags(self, flags)` (source lines 75-78): replaces the flag
set. -/
def Instance.with_flags (i : Instance) (flags : InstanceFlags) : Instance :=
  { i with flags := flags }

/-- One step of the fluent configuration API: each constructor is one of
the five setters with its argument. -/
inductive ConfigOp where
  | setTransform (t : RowMatrix3x4)
  | setInstanceId (n : Nat)
  | setSbtOffset (n : Nat)
  | setVisibilityMask (n : Nat)
  | setFlags (f : InstanceFlags)

/-- Apply one configuration operation to an instance. -/
def applyOp (i : Instance) (op : ConfigOp) : Instance :=
  match op with
  | .setTransform t => i.with_transform t
  | .setInstanceId n => i.with_instance_id n
  | .setSbtOffset n => i.with_sbt_offset n
  | .setVisibilityMask n => i.with_visibility_mask n
  | .setFlags f => i.with_flags f

/-- Apply a chain of configuration operations, left to right, as a fluent
call chain does. -/
def applyOps (i : Instance) (ops : List ConfigOp) : Instance :=
  ops.foldl applyOp i

/-- Modelled from the spec: the external device sequence collaborator
(`cust::memory::DeviceSlice`), exposing `as_device_pointer() -> address`
and `length() -> count`. The element type is a phantom parameter, as in
the source. -/
structure DeviceSlice (α : Type) where
  devicePtr : Nat
  len : Nat
  deriving DecidableEq, Repr

/-- `DeviceSlice::as_device_ptr()`. -/
def DeviceSlice.as_device_ptr {α : Type} (s : DeviceSlice α) : Nat :=
  s.devicePtr

/-- `cust_raw::CUdeviceptr`: a raw 64-bit device address. -/
abbrev CUdeviceptr := Nat

/-- Modelled from the spec: the build-input type tag
`sys::OptixBuildInputType_OPTIX_BUILD_INPUT_TYPE_INSTANCES` (driver ABI
enumeration value). -/
def OPTIX_BUILD_INPUT_TYPE_INSTANCES : Nat := 0x2143

/-- Modelled from the spec: the build-input type tag
`sys::OptixBuildInputType_OPTIX_BUILD_INPUT_TYPE_INSTANCE_POINTERS`
(driver ABI enumeration value, distinct from the instance-array tag). -/
def OPTIX_BUILD_INPUT_TYPE_INSTANCE_POINTERS : Nat := 0x2144

/-- The compile-time driver-generation selection made by
`cfg_if!` on features `optix72` / `optix73` (source lines 93 and 133):
either one of the newer generations, or an older one. -/
inductive DriverGen where
  | optix72or73
  | preOptix72
  deriving DecidableEq, Repr

/-- `sys::OptixBuildInputInstanceArray` in its two driver-generation
shapes: the newer shape carries exactly the device pointer and the 32-bit
count; the older shape additionally carries the two reserved
bounding-box fields `aabbs` and `numAabbs`. -/
inductive OptixBuildInputInstanceArray where
  | modern (instances : Nat) (numInstances : Nat)
  | legacy (instances : Nat) (numInstances : Nat) (aabbs : Nat) (numAabbs : Nat)
  deriving DecidableEq, Repr

/-- The device pointer field of either payload shape. -/
def OptixBuildInputInstanceArray.instancesOf :
    OptixBuildInputInstanceArray → Nat
  | .modern p _ => p
  | .legacy p _ _ _ => p

/-- The 32-bit count field of either payload shape. -/
def OptixBuildInputInstanceArray.numInstancesOf :
    OptixBuildInputInstanceArray → Nat
  | .modern _ n => n
  | .legacy _ n _ _ => n

/-- The reserved bounding-box pointer field: absent from the newer shape,
present in the older one. -/
def OptixBuildInputInstanceArray.aabbsOf :
    OptixBuildInputInstanceArray → Option Nat
  | .modern _ _ => none
  | .legacy _ _ a _ => some a

/-- The reserved bounding-box count field: absent from the newer shape,
present in the older one. -/
def OptixBuildInputInstanceArray.numAabbsOf :
    OptixBuildInputInstanceArray → Option Nat
  | .modern _ _ => none
  | .legacy _ _ _ n => some n

/-- `sys::OptixBuildInput`: the tagged build-input descriptor. Only the
`instance_array` arm of the payload union is exercised by this module, so
the union is modelled by that arm. -/
structure OptixBuildInput where
  type_ : Nat
  input : OptixBuildInputInstanceArray
  deriving DecidableEq, Repr

/-- `InstanceArray` (source lines 81-83): a borrowed device sequence of
inline `Instance` records. -/
structure InstanceArray where
  instances : DeviceSlice Instance

/-- `InstanceArray::new` (source lines 86-88). -/
def InstanceArray.new (instances : DeviceSlice Instance) : InstanceArray :=
  ⟨instances⟩

/-- `<InstanceArray as BuildInput>::to_sys` (source lines 91-119): the
`cfg_if!` compile-time branch is the `DriverGen` parameter; both branches
tag the descriptor with the instance-array tag and embed the sequence's
device pointer and its length cast `as u32`; the older branch zeroes the
two reserved bounding-box fields. -/
def InstanceArray.to_sys (gen : DriverGen) (a : InstanceArray) :
    OptixBuildInput :=
  match gen with
  | .optix72or73 =>
    { type_ := OPTIX_BUILD_INPUT_TYPE_INSTANCES
      input := .modern a.instances.as_device_ptr (a.instances.len % U32) }
  | .preOptix72 =>
    { type_ := OPTIX_BUILD_INPUT_TYPE_INSTANCES
      input := .legacy a.instances.as_device_ptr (a.instances.len % U32) 0 0 }

/-- `InstancePointerArray` (source lines 122-124): a borrowed device
sequence of raw device addresses of `Instance` records. -/
structure InstancePointerArray where
  instances : DeviceSlice CUdeviceptr

/-- `InstancePointerArray::new` (source lines 127-129). -/
def InstancePointerArray.new (instances : DeviceSlice CUdeviceptr) :
    InstancePointerArray :=
  ⟨instances⟩

/-- `<InstancePointerArray as BuildInput>::to_sys` (source lines 131-159):
identical payload construction to `InstanceArray::to_sys`, but tagged with
the instance-pointer-array tag. -/
def InstancePointerArray.to_sys (gen : DriverGen) (a : InstancePointerArray) :
    OptixBuildInput :=
  match gen with
  | .optix72or73 =>
    { type_ := OPTIX_BUILD_INPUT_TYPE_INSTANCE_POINTERS
      input := .modern a.instances.as_device_ptr (a.instances.len % U32) }
  | .preOptix72 =>
    { type_ := OPTIX_BUILD_INPUT_TYPE_INSTANCE_POINTERS
      input := .legacy a.instances.as_device_ptr (a.instances.len % U32) 0 0 }

/-- Round `off` up to the next multiple of the alignment `a` (the C
layout rule for placing a field). -/
def alignUp (off a : Nat) : Nat := (off + a - 1) / a * a

/-- The `repr(C)` struct layout computation: fields are placed in order,
each at its own alignment; the struct alignment is the maximum of the
field alignments and the declared minimum alignment; the size is the
final offset rounded up to the struct alignment. Returns (size, align). -/
def reprCLayout (minAlign : Nat) (fields : List (Nat × Nat)) : Nat × Nat :=
  let fin := fields.foldl
    (fun acc f => (alignUp acc.1 f.2 + f.1, max acc.2 f.2)) (0, minAlign)
  (alignUp fin.1 fin.2, fin.2)

/-- The (size, align) of each field of `Instance` in declaration order
(source lines 10-18): `RowMatrix3x4<f32>` is 12 4-byte floats,
the four `u32` fields, the 8-byte `TraversableHandle`, the `[u32; 2]`
padding array, and the zero-sized `PhantomData` marker. -/
def instanceFieldLayouts : List (Nat × Nat) :=
  [(48, 4), (4, 4), (4, 4), (4, 4), (4, 4), (8, 8), (8, 4), (0, 1)]

/-- The layout of `Instance` under `repr(C, align(16))` (source line 8):
minimum alignment 16. -/
def instanceLayout : Nat × Nat := reprCLayout 16 instanceFieldLayouts

/-- Modelled from the spec: the external driver struct
`sys::OptixInstance`, laid out per the spec's binary-layout table —
12 4-byte floats, four 4-byte unsigned fields, an 8-byte handle and
2 x 4-byte padding, under plain C layout. -/
def sysOptixInstanceLayout : Nat × Nat :=
  reprCLayout 1 [(48, 4), (4, 4), (4, 4), (4, 4), (4, 4), (8, 8), (8, 4)]

/-- Modelled from the spec: `sys::OptixInstanceByteAlignment`, the
driver's required 16-byte alignment for instance records. -/
def OptixInstanceByteAlignment : Nat := 16

/-- A concrete bottom-level structure used by witnesses. -/
def testAccel : Accel := ⟨⟨12345⟩⟩

/-! Claim theorems. -/

/-- Claim C1: for every bottom-level structure, `Instance::new` produces
the identity transform, instance id 0, sbt offset 0, visibility mask 255,
flags NONE, and the traversable handle obtained from the structure. -/
theorem C1_instance_new_defaults (accel : Accel) :
    (Instance.new accel).transform = [1, 0, 0, 0, 0, 1, 0, 0, 0, 0, 1, 0] ∧
    (Instance.new accel).instance_id = 0 ∧
    (Instance.new accel).sbt_offset = 0 ∧
    (Instance.new accel).visibility_mask = 255 ∧
    (Instance.new accel).flags = InstanceFlags.NONE ∧
    (Instance.new accel).traversable_handle = accel.handle :=
  ⟨rfl, rfl, rfl, rfl, rfl, rfl⟩

/-- Claim C2 counterexample: at a sequence of length `2 ^ 32` the count
written into the descriptor is not the length — the `as u32` cast wraps
it to 0 — so the claim as stated (count equals N for every N) is false. -/
theorem C2_counterexample :
    ((InstanceArray.new (DeviceSlice.mk 4096 (2 ^ 32))).to_sys
        DriverGen.optix72or73).input.numInstancesOf = 0 ∧
    (0 : Nat) ≠ 2 ^ 32 := by
  constructor
  · rfl
  · decide

/-- Claim C2 (amended): for every borrowed device sequence of `Instance`
records of length N, the conversion yields the instance-array type tag,
the sequence's own device address, and a count equal to N reduced modulo
`2 ^ 32` (equal to N whenever N is below `2 ^ 32`); the older-generation
shape additionally carries the two reserved bounding-box fields, both
zero, and the newer shape carries no such fields. -/
theorem C2_to_sys_descriptor (gen : DriverGen) (s : DeviceSlice Instance) :
    ((InstanceArray.new s).to_sys gen).type_ =
      OPTIX_BUILD_INPUT_TYPE_INSTANCES ∧
    ((InstanceArray.new s).to_sys gen).input.instancesOf =
      s.as_device_ptr ∧
    ((InstanceArray.new s).to_sys gen).input.numInstancesOf =
      s.len % 2 ^ 32 ∧
    ((InstanceArray.new s).to_sys DriverGen.optix72or73).input.aabbsOf =
      none ∧
    ((InstanceArray.new s).to_sys DriverGen.optix72or73).input.numAabbsOf =
      none ∧
    ((InstanceArray.new s).to_sys DriverGen.preOptix72).input.aabbsOf =
      some 0 ∧
    ((InstanceArray.new s).to_sys DriverGen.preOptix72).input.numAabbsOf =
      some 0 := by
  cases gen <;> exact ⟨rfl, rfl, rfl, rfl, rfl, rfl, rfl⟩

/-- Claim C3: for every instance and every 8-bit value m, the
visibility-mask setter stores a 32-bit field numerically equal to m with
the upper 24 bits zero. -/
theorem C3_visibility_mask_widened (i : Instance) (m : Nat) (hm : m < 256) :
    (i.with_visibility_mask m).visibility_mask = m ∧
    (i.with_visibility_mask m).visibility_mask >>> 8 = 0 := by
  refine ⟨rfl, ?_⟩
  show m >>> 8 = 0
  rw [Nat.shiftRight_eq_div_pow]
  exact Nat.div_eq_of_lt hm

/-- Claim C3 witness: setting mask 200 on a freshly built instance stores
exactly 200 with the upper 24 bits zero. -/
theorem C3_visibility_mask_witness :
    ((Instance.new testAccel).with_visibility_mask 200).visibility_mask
        = 200 ∧
    ((Instance.new testAccel).with_visibility_mask 200).visibility_mask
        >>> 8 = 0 :=
  C3_visibility_mask_widened (Instance.new testAccel) 200 (by decide)

/-- Claim C4: the `repr(C, align(16))` layout of `Instance` computes to
size 80 and alignment 16, equal to the external driver struct size and the
driver's required alignment — the two `const_assert_eq!` guards at source
lines 21-22 hold. (That the guards run at compile time is a property of
the `const_assert_eq!` mechanism itself, outside the value model.) -/
theorem C4_layout_matches_driver :
    instanceLayout.1 = sysOptixInstanceLayout.1 ∧
    instanceLayout.2 = OptixInstanceByteAlignment ∧
    instanceLayout.1 = 80 ∧
    instanceLayout.2 = 16 := by
  decide

/-- Claim C5: chained configuration is last-write-wins: setting the
instance id to a and then to b leaves b, and the flags setter replaces the
whole flag set, so the last call wins. -/
theorem C5_last_write_wins (i : Instance) (a b : Nat)
    (f g : InstanceFlags) :
    ((i.with_instance_id a).with_instance_id b).instance_id = b ∧
    ((i.with_flags f).with_flags g).flags = g :=
  ⟨rfl, rfl⟩

/-- Claim C6: for every device pointer and count pair, the descriptor
produced by `InstancePointerArray` carries a type tag different from the
one produced by `InstanceArray`, while the payloads coincide. -/
theorem C6_tag_differs (gen : DriverGen) (p n : Nat) :
    ((InstancePointerArray.new (DeviceSlice.mk p n)).to_sys gen).type_ =
      OPTIX_BUILD_INPUT_TYPE_INSTANCE_POINTERS ∧
    ((InstanceArray.new (DeviceSlice.mk p n)).to_sys gen).type_ =
      OPTIX_BUILD_INPUT_TYPE_INSTANCES ∧
    ((InstancePointerArray.new (DeviceSlice.mk p n)).to_sys gen).type_ ≠
      ((InstanceArray.new (DeviceSlice.mk p n)).to_sys gen).type_ ∧
    ((InstancePointerArray.new (DeviceSlice.mk p n)).to_sys gen).input =
      ((InstanceArray.new (DeviceSlice.mk p n)).to_sys gen).input := by
  cases gen <;>
    exact ⟨rfl, rfl,
      show OPTIX_BUILD_INPUT_TYPE_INSTANCE_POINTERS ≠
          OPTIX_BUILD_INPUT_TYPE_INSTANCES by decide, rfl⟩

/-- Claim C7: an `InstanceArray` over a zero-length device sequence is
legal — `to_sys` is a total function on it — and the produced descriptor
has count 0. -/
theorem C7_empty_sequence (gen : DriverGen) (p : Nat) :
    ((InstanceArray.new (DeviceSlice.mk p 0)).to_sys gen).input.numInstancesOf
      = 0 := by
  cases gen <;> rfl

/-- Claim C8: the union `DISABLE_ANYHIT | ENFORCE_ANYHIT` has both flags'
bits set, and the membership test on the union recovers each flag
individually. -/
theorem C8_flag_union_membership :
    (InstanceFlags.DISABLE_ANYHIT.union InstanceFlags.ENFORCE_ANYHIT).bits
        &&& InstanceFlags.DISABLE_ANYHIT.bits
      = InstanceFlags.DISABLE_ANYHIT.bits ∧
    (InstanceFlags.DISABLE_ANYHIT.union InstanceFlags.ENFORCE_ANYHIT).bits
        &&& InstanceFlags.ENFORCE_ANYHIT.bits
      = InstanceFlags.ENFORCE_ANYHIT.bits ∧
    (InstanceFlags.DISABLE_ANYHIT.union
        InstanceFlags.ENFORCE_ANYHIT).contains
        InstanceFlags.DISABLE_ANYHIT = true ∧
    (InstanceFlags.DISABLE_ANYHIT.union
        InstanceFlags.ENFORCE_ANYHIT).contains
        InstanceFlags.ENFORCE_ANYHIT = true := by
  decide

/-- Each single configuration operation leaves the padding words
untouched. -/
theorem applyOp_pad (i : Instance) (op : ConfigOp) :
    (applyOp i op).pad = i.pad := by
  cases op <;> rfl

/-- Every chain of configuration operations leaves the padding words
untouched. -/
theorem applyOps_pad (i : Instance) (ops : List ConfigOp) :
    (applyOps i ops).pad = i.pad := by
  induction ops generalizing i with
  | nil => rfl
  | cons op rest ih =>
    show (applyOps (applyOp i op) rest).pad = i.pad
    rw [ih, applyOp_pad]

/-- Claim C9: the two reserved padding words are zero after construction
and remain zero under every sequence of configuration operations,
regardless of the configuration path taken. -/
theorem C9_pad_always_zero (accel : Accel) (ops : List ConfigOp) :
    (applyOps (Instance.new accel) ops).pad = [0, 0] := by
  rw [applyOps_pad]
  rfl

/-- Claim C10: both build-input conversions write the sequence length
reduced modulo `2 ^ 32` as the count — the platform length cast to a
32-bit unsigned value — so a length at or above `2 ^ 32` silently wraps,
as the concrete final conjunct at length `2 ^ 32` shows. -/
theorem C10_count_wraps (gen : DriverGen) (s : DeviceSlice Instance)
    (t : DeviceSlice CUdeviceptr) :
    ((InstanceArray.new s).to_sys gen).input.numInstancesOf
      = s.len % 2 ^ 32 ∧
    ((InstancePointerArray.new t).to_sys gen).input.numInstancesOf
      = t.len % 2 ^ 32 ∧
    ((InstanceArray.new (DeviceSlice.mk 0 (2 ^ 32))).to_sys
        DriverGen.optix72or73).input.numInstancesOf = 0 := by
  cases gen <;> exact ⟨rfl, rfl, rfl⟩

end InstanceArraySpec
